import Mathlib

/-!
Verification of the jvm-r bytecode interpreter against its specification.

The development shallowly embeds the parts of the Rust sources that the
claims concern: runtime values and stack frames, the comparison / math /
shift / stack-manipulation instruction handlers, method-descriptor parsing
and the invokespecial argument copy, the two tableswitch decoders, the
class-file constant-pool reader, the lazy constant-pool resolver with its
cache, and the reference-array object model.

Modelling conventions:
- Rust machine integers i8/i16/i32/i64 are Int, u8/u16/u32/usize are Nat;
  casts and masks are written out explicitly. f32/f64 payloads are carried
  as raw bit patterns (Nat): no claim depends on floating-point arithmetic.
- A Rust panic, unwrap failure, unimplemented arm or Err is Option.none.
- Rc identity is modelled by arena indices (Nat handles): two handles are
  the same Rc exactly when the indices are equal.
- The Rust operand stack is a Vec pushed and popped at its back; here the
  head of the list is the top of the stack.
-/

namespace JvmR

/-- Runtime values (vm/jvalue.rs, JValue). References carry the address of
the heap object they point to. -/
inductive JValue where
  | byte (v : Int)
  | short (v : Int)
  | int (v : Int)
  | long (v : Int)
  | char (v : Nat)
  | float (bits : Nat)
  | double (bits : Nat)
  | boolean (v : Bool)
  | reference (addr : Nat)
  | null
deriving DecidableEq

/-- JValue::is_category2 (vm/jvalue.rs): true for Long and Double only. -/
def JValue.is_category2 : JValue → Bool
  | JValue.long _ => true
  | JValue.double _ => true
  | _ => false

/-- Interpreter stack frame (vm/stack_frame.rs). The class and method
back-references (Rc handles) are not carried: no claim below reads them
through the frame. -/
structure StackFrame where
  locals : List JValue
  operand_stack : List JValue
  pc : Nat
deriving DecidableEq

/-- Rust usize::checked_add_signed followed by unwrap, as used for every pc
update in the source: a negative target panics. -/
def checkedAddSigned (pc : Nat) (offset : Int) : Option Nat :=
  if (pc : Int) + offset < 0 then none else some ((pc : Int) + offset).toNat

/-- Handler if_icmpgt (vm/jvm.rs lines 764-777): pops value2 then value1 and
branches when value1 > value2. A type mismatch or stack underflow panics in
the source. -/
def if_icmpgt (frame : StackFrame) (offset : Int) : Option StackFrame :=
  match frame.operand_stack with
  | JValue.int value2 :: JValue.int value1 :: rest =>
      if value1 > value2 then
        match checkedAddSigned frame.pc offset with
        | some pc2 => some { frame with operand_stack := rest, pc := pc2 }
        | none => none
      else
        some { frame with operand_stack := rest }
  | _ => none

/-- Handler if_icmpge (vm/jvm.rs lines 749-762): branches when
value1 >= value2. Present in the source but never reached: the dispatch
table does not call it. -/
def if_icmpge (frame : StackFrame) (offset : Int) : Option StackFrame :=
  match frame.operand_stack with
  | JValue.int value2 :: JValue.int value1 :: rest =>
      if value1 >= value2 then
        match checkedAddSigned frame.pc offset with
        | some pc2 => some { frame with operand_stack := rest, pc := pc2 }
        | none => none
      else
        some { frame with operand_stack := rest }
  | _ => none

/-- Dispatch of the IfICmpGe opcode (vm/jvm.rs line 278): the interpreter
routes Opcode::IfICmpGe to the if_icmpgt handler, not to if_icmpge. -/
def executeIfICmpGe (frame : StackFrame) (offset : Int) : Option StackFrame :=
  if_icmpgt frame offset

/-- One run-loop iteration on an if_icmpge instruction (vm/jvm.rs lines
61-68): execute the opcode, then advance pc by the decoded instruction
length (3 bytes for if_icmpge) exactly when the handler left pc unchanged. -/
def stepIfICmpGe (frame : StackFrame) (offset : Int) : Option StackFrame :=
  match executeIfICmpGe frame offset with
  | none => none
  | some f => if f.pc = frame.pc then some { f with pc := f.pc + 3 } else some f

/-- Two's-complement wrap of a mathematical integer into the signed range of
the given bit width; this is what the spec demands of the integer math
opcodes. -/
def wrapSigned (bits : Nat) (x : Int) : Int :=
  (x + 2 ^ (bits - 1)) % 2 ^ bits - 2 ^ (bits - 1)

/-- Rust i32 addition as the source performs it (plain +, vm/jvm.rs line
971): in a debug build the addition panics when the mathematical result
leaves the 32-bit signed range. -/
def i32Add (a b : Int) : Option Int :=
  if -(2 ^ 31) ≤ a + b ∧ a + b < 2 ^ 31 then some (a + b) else none

/-- Rust i32 multiplication as the source performs it (plain *, vm/jvm.rs
line 1059): panics on overflow in a debug build. -/
def i32Mul (a b : Int) : Option Int :=
  if -(2 ^ 31) ≤ a * b ∧ a * b < 2 ^ 31 then some (a * b) else none

/-- Rust i64 addition as the source performs it (plain +, vm/jvm.rs line
982): panics on overflow in a debug build. -/
def i64Add (a b : Int) : Option Int :=
  if -(2 ^ 63) ≤ a + b ∧ a + b < 2 ^ 63 then some (a + b) else none

/-- Handler iadd (vm/jvm.rs lines 967-976): pops value2 then value1, pushes
value1 + value2. -/
def iadd (frame : StackFrame) : Option StackFrame :=
  match frame.operand_stack with
  | JValue.int value2 :: JValue.int value1 :: rest =>
      match i32Add value1 value2 with
      | some r => some { frame with operand_stack := JValue.int r :: rest }
      | none => none
  | _ => none

/-- Handler imul (vm/jvm.rs lines 1055-1064). -/
def imul (frame : StackFrame) : Option StackFrame :=
  match frame.operand_stack with
  | JValue.int value2 :: JValue.int value1 :: rest =>
      match i32Mul value1 value2 with
      | some r => some { frame with operand_stack := JValue.int r :: rest }
      | none => none
  | _ => none

/-- Handler ladd (vm/jvm.rs lines 978-987). -/
def ladd (frame : StackFrame) : Option StackFrame :=
  match frame.operand_stack with
  | JValue.long value2 :: JValue.long value1 :: rest =>
      match i64Add value1 value2 with
      | some r => some { frame with operand_stack := JValue.long r :: rest }
      | none => none
  | _ => none

/-- Rust cast of an i64 to u32: truncation to the low 32 bits. -/
def u32ofI64 (v : Int) : Nat := (v % 2 ^ 32).toNat

/-- Reinterpretation of a u32 bit pattern as an i32. -/
def i32ofU32 (n : Nat) : Int := if n < 2 ^ 31 then (n : Nat) else (n : Int) - 2 ^ 32

/-- Handler lushr (vm/jvm.rs lines 1298-1311). The shift count is the low 6
bits of value2. The source then computes (value1 as u32) >> shift: the long
is truncated to its low 32 bits, the u32 shift panics in a debug build when
the count is 32 or more, and the result is pushed as an Int, not a Long. -/
def lushr (frame : StackFrame) : Option StackFrame :=
  match frame.operand_stack with
  | JValue.int value2 :: JValue.long value1 :: rest =>
      let shift := (Int.land value2 63).toNat
      if shift < 32 then
        some { frame with
               operand_stack := JValue.int (i32ofU32 (u32ofI64 value1 >>> shift)) :: rest }
      else none
  | _ => none

/-- Handler pop2 (vm/jvm.rs lines 1403-1412): one pop when the top value is
category 2, two pops otherwise. The last() and pop() unwraps panic on an
underflowing stack. -/
def pop2 (frame : StackFrame) : Option StackFrame :=
  match frame.operand_stack with
  | [] => none
  | top :: rest =>
      if top.is_category2 then some { frame with operand_stack := rest }
      else
        match rest with
        | _ :: rest2 => some { frame with operand_stack := rest2 }
        | [] => none

/-- Handler dup2 (vm/jvm.rs lines 1447-1462): a category-2 top value is
popped and pushed twice; otherwise the top two values are popped and pushed
back twice in order. -/
def dup2 (frame : StackFrame) : Option StackFrame :=
  match frame.operand_stack with
  | [] => none
  | value1 :: rest =>
      if value1.is_category2 then
        some { frame with operand_stack := value1 :: value1 :: rest }
      else
        match rest with
        | value2 :: rest2 =>
            some { frame with operand_stack := value1 :: value2 :: value1 :: value2 :: rest2 }
        | [] => none

/-- Field and method descriptor types (DescriptorType, referenced from
method.rs; its declaring file is not among the sources, so the variants are
reconstructed from their uses in Method::parse_field_type and
parse_return_type, which force them uniquely). -/
inductive DescriptorType where
  | byte
  | char
  | double
  | float
  | int
  | long
  | short
  | boolean
  | object (name : List Char)
  | array (inner : DescriptorType)
  | void
deriving DecidableEq

/-- Object-name scan in Method::parse_field_type (method.rs, the L branch):
consume characters up to and including the first semicolon; the name is
everything before it. Without a semicolon the whole remainder is consumed. -/
def takeObjectName : List Char → List Char × List Char
  | [] => ([], [])
  | c :: rest =>
      if c = ';' then ([], rest)
      else
        let p := takeObjectName rest
        (c :: p.1, p.2)

/-- Method::parse_field_type (method.rs lines 83-110): single-letter base
types, L...; object types, [-prefixed array types; anything else panics. -/
def parseFieldType : List Char → Option (DescriptorType × List Char)
  | [] => none
  | 'B' :: rest => some (DescriptorType.byte, rest)
  | 'C' :: rest => some (DescriptorType.char, rest)
  | 'D' :: rest => some (DescriptorType.double, rest)
  | 'F' :: rest => some (DescriptorType.float, rest)
  | 'I' :: rest => some (DescriptorType.int, rest)
  | 'J' :: rest => some (DescriptorType.long, rest)
  | 'S' :: rest => some (DescriptorType.short, rest)
  | 'Z' :: rest => some (DescriptorType.boolean, rest)
  | 'L' :: rest =>
      let p := takeObjectName rest
      some (DescriptorType.object p.1, p.2)
  | '[' :: rest =>
      match parseFieldType rest with
      | some (inner, rest2) => some (DescriptorType.array inner, rest2)
      | none => none
  | _ :: _ => none

theorem takeObjectName_length (l : List Char) : (takeObjectName l).2.length ≤ l.length := by
  induction l with
  | nil => simp [takeObjectName]
  | cons c rest ih =>
      by_cases h : c = ';' <;> simp [takeObjectName, h] <;> omega

theorem parseFieldType_length :
    ∀ {l : List Char} {t : DescriptorType} {r : List Char},
      parseFieldType l = some (t, r) → r.length < l.length := by
  intro l
  induction l with
  | nil => intro t r h; simp [parseFieldType] at h
  | cons c rest ih =>
      intro t r h
      unfold parseFieldType at h
      split at h
      any_goals (first | (cases h; done) | (cases h; simp_all; done))
      case _ x heq =>
        cases h
        cases heq
        have := takeObjectName_length rest
        simp only [List.length_cons]
        omega
      case _ x heq =>
        cases heq
        split at h
        case _ inner rest3 hp =>
          cases h
          have := ih hp
          simp only [List.length_cons]
          omega
        case _ => cases h

/-- Argument loop of Method::parse_method_descriptor (method.rs lines
57-64): peel field types until the closing parenthesis. When the characters
run out before a closing parenthesis, the loop ends and the subsequent
return-type parse fails on the empty remainder, as in the source. -/
def parseArgs (chars : List Char) : Option (List DescriptorType × List Char) :=
  match chars with
  | [] => some ([], [])
  | c :: rest =>
      if c = ')' then some ([], rest)
      else
        match h : parseFieldType (c :: rest) with
        | none => none
        | some (t, rest2) =>
            match parseArgs rest2 with
            | none => none
            | some (ts, rest3) => some (t :: ts, rest3)
termination_by chars.length
decreasing_by
  exact parseFieldType_length h

/-- Method::parse_return_type (method.rs lines 72-81): V is void, anything
else goes through parse_field_type. -/
def parseReturnType (chars : List Char) : Option (DescriptorType × List Char) :=
  match chars with
  | 'V' :: rest => some (DescriptorType.void, rest)
  | _ => parseFieldType chars

/-- Method::parse_method_descriptor (method.rs lines 51-70): an opening
parenthesis, the argument types, then the return type. -/
def parseMethodDescriptor (descriptor : List Char) :
    Option (List DescriptorType × DescriptorType) :=
  match descriptor with
  | '(' :: rest =>
      match parseArgs rest with
      | none => none
      | some (args, rest2) =>
          match parseReturnType rest2 with
          | none => none
          | some (ret, _) => some (args, ret)
  | _ => none

/-- Method record (vm/method.rs). The code buffer is raw bytes. -/
structure Method where
  name : List Char
  descriptor : List Char
  code : List Nat
  max_locals : Nat
  max_stack : Nat
deriving DecidableEq

/-- Modelled from the spec: StackFrame::new is called from jvm.rs but its
definition is not among the sources. Spec section 3 fixes a fixed-length
locals vector of size max_locals, a fresh operand stack and a starting pc;
the initial filler of the locals is not observable by any claim and is
taken to be Null. -/
def StackFrame.new (method : Method) : StackFrame :=
  { locals := List.replicate method.max_locals JValue.null
    operand_stack := []
    pc := 0 }

/-- Argument-popping loop of invokespecial (vm/jvm.rs lines 358-361): pop
one stack value per argument; an underflow panics. The result lists the
values in pop order. -/
def popMany : Nat → List JValue → Option (List JValue × List JValue)
  | 0, stack => some ([], stack)
  | n + 1, stack =>
      match stack with
      | [] => none
      | v :: rest =>
          match popMany n rest with
          | none => none
          | some (vs, rest2) => some (v :: vs, rest2)

/-- Rust Vec index assignment: panics out of bounds. -/
def setLocal (locals : List JValue) (i : Nat) (v : JValue) : Option (List JValue) :=
  if i < locals.length then some (locals.set i v) else none

/-- Argument-copy loop of invokespecial (vm/jvm.rs lines 367-369): write the
arguments into consecutive local slots starting at the given index. -/
def storeArgs : List JValue → Nat → List JValue → Option (List JValue)
  | locals, _, [] => some locals
  | locals, i, arg :: rest =>
      match setLocal locals i arg with
      | none => none
      | some locals2 => storeArgs locals2 (i + 1) rest

/-- invokespecial (vm/jvm.rs lines 352-378), taken after the constant-pool
entry has resolved to a method (resolution itself is modelled with
resolveConstant below). Parses the descriptor, pops one value per argument,
reverses them, pops the receiver, writes receiver then arguments into local
slots 0, 1, 2, ... of the callee frame, advances the caller pc by 3, and
yields (updated caller frame, new callee frame). -/
def invokespecial (caller : StackFrame) (method : Method) :
    Option (StackFrame × StackFrame) :=
  match parseMethodDescriptor method.descriptor with
  | none => none
  | some (args, _) =>
      match popMany args.length caller.operand_stack with
      | none => none
      | some (argValues, stack1) =>
          match stack1 with
          | JValue.reference obj :: stack2 =>
              let newFrame := StackFrame.new method
              match setLocal newFrame.locals 0 (JValue.reference obj) with
              | none => none
              | some locals0 =>
                  match storeArgs locals0 1 argValues.reverse with
                  | none => none
                  | some locals1 =>
                      some ({ caller with operand_stack := stack2, pc := caller.pc + 3 },
                            { newFrame with locals := locals1 })
          | _ => none

/-- Big-endian byte-stream primitive: one byte. Bytes are Nats below 256; a
short read fails as the io::Result does in the source. -/
def readU8 : List Nat → Option (Nat × List Nat)
  | [] => none
  | b :: rest => some (b, rest)

/-- Big-endian u16 read. -/
def readU16 (input : List Nat) : Option (Nat × List Nat) :=
  match input with
  | b0 :: b1 :: rest => some (b0 * 256 + b1, rest)
  | _ => none

/-- Big-endian u32 read. -/
def readU32 (input : List Nat) : Option (Nat × List Nat) :=
  match input with
  | b0 :: b1 :: b2 :: b3 :: rest =>
      some (((b0 * 256 + b1) * 256 + b2) * 256 + b3, rest)
  | _ => none

/-- Big-endian u64 read. -/
def readU64 (input : List Nat) : Option (Nat × List Nat) :=
  match readU32 input with
  | none => none
  | some (hi, rest) =>
      match readU32 rest with
      | none => none
      | some (lo, rest2) => some (hi * 2 ^ 32 + lo, rest2)

/-- Big-endian i32 read: the u32 pattern reinterpreted as signed. -/
def readI32 (input : List Nat) : Option (Int × List Nat) :=
  match readU32 input with
  | some (n, rest) => some (i32ofU32 n, rest)
  | none => none

/-- Big-endian i64 read: the u64 pattern reinterpreted as signed. -/
def readI64 (input : List Nat) : Option (Int × List Nat) :=
  match readU64 input with
  | some (n, rest) =>
      some (if n < 2 ^ 63 then (n : Int) else (n : Int) - 2 ^ 64, rest)
  | none => none

/-- Padding loop of the tableswitch decoders: skip bytes one at a time, each
read failing on exhaustion. -/
def skipBytes : Nat → List Nat → Option (List Nat)
  | 0, input => some input
  | n + 1, input =>
      match readU8 input with
      | some (_, rest) => skipBytes n rest
      | none => none

/-- Offset-table loop of the tableswitch decoders: read the given number of
big-endian i32 values. -/
def readI32List : Nat → List Nat → Option (List Int × List Nat)
  | 0, input => some ([], input)
  | n + 1, input =>
      match readI32 input with
      | none => none
      | some (v, rest) =>
          match readI32List n rest with
          | none => none
          | some (vs, rest2) => some (v :: vs, rest2)

/-- Decoded tableswitch instruction (the Opcode::TableSwitch payload). -/
structure TableSwitch where
  default_offset : Int
  low : Int
  high : Int
  jump_offsets : List Int
deriving DecidableEq

/-- Fetch-time tableswitch decoding: the 0xAA arm of JVM::parse_opcode
(vm/jvm.rs lines 2405-2424). Takes the whole code buffer and the pc of the
opcode; alignment padding is (4 - (pc + 1) % 4) % 4. The offset loop runs
over low..=high inclusively, reading high - low + 1 offsets. Returns the
instruction and its total byte length (the source adds 1 for the opcode
byte at the end). -/
def parseTableswitchInterp (code : List Nat) (pc : Nat) : Option (TableSwitch × Nat) :=
  match readU8 (code.drop pc) with
  | none => none
  | some (op, r0) =>
      if op = 0xAA then
        let padding := (4 - (pc + 1) % 4) % 4
        match skipBytes padding r0 with
        | none => none
        | some r1 =>
            match readI32 r1 with
            | none => none
            | some (dflt, r2) =>
                match readI32 r2 with
                | none => none
                | some (low, r3) =>
                    match readI32 r3 with
                    | none => none
                    | some (high, r4) =>
                        match readI32List (high - low + 1).toNat r4 with
                        | none => none
                        | some (offsets, _) =>
                            some (⟨dflt, low, high, offsets⟩,
                                  1 + padding + 12 + 4 * offsets.length)
      else none

/-- Class-file-reader tableswitch decoding: the 0xAA arm of
ClassFileReader::parse_opcode (reader.rs lines 928-948). Entered just after
the opcode byte, with bytes_read counting the bytes consumed so far in the
code attribute (opcode byte included). Its offset loop is written
for _ in low..high, so it reads only high - low offsets. Returns the
instruction, the updated bytes_read, and the remaining input. -/
def parseTableswitchReader (bytesRead : Nat) (input : List Nat) :
    Option (TableSwitch × Nat × List Nat) :=
  let padding := (4 - bytesRead % 4) % 4
  match skipBytes padding input with
  | none => none
  | some r1 =>
      match readI32 r1 with
      | none => none
      | some (dflt, r2) =>
          match readI32 r2 with
          | none => none
          | some (low, r3) =>
              match readI32 r3 with
              | none => none
              | some (high, r4) =>
                  match readI32List (high - low).toNat r4 with
                  | none => none
                  | some (offsets, r5) =>
                      some (⟨dflt, low, high, offsets⟩,
                            bytesRead + padding + 12 + 4 * offsets.length, r5)

/-- Constant-pool entries as decoded by the reader (reader.rs
ConstantPoolInfo). -/
inductive ConstantPoolInfo where
  | utf8 (string : List Char)
  | integer (bytes : Int)
  | floatInfo (bytes : Nat)
  | long (bytes : Int)
  | doubleInfo (bytes : Nat)
  | classInfo (name_index : Nat)
  | string (string_index : Nat)
  | fieldRef (class_index : Nat) (name_and_type_index : Nat)
  | methodRef (class_index : Nat) (name_and_type_index : Nat)
  | interfaceMethodRef (class_index : Nat) (name_and_type_index : Nat)
  | nameAndType (name_index : Nat) (descriptor_index : Nat)
  | methodHandle (reference_kind : Nat) (reference_index : Nat)
  | methodType (descriptor_index : Nat)
  | dynamic (bootstrap_method_attr_index : Nat) (name_and_type_index : Nat)
  | invokeDynamic (bootstrap_method_attr_index : Nat) (name_and_type_index : Nat)
  | moduleInfo (name_index : Nat)
  | packageInfo (name_index : Nat)
deriving DecidableEq

/-- Read an exact number of raw bytes (BufReader::read_exact). -/
def readBytes : Nat → List Nat → Option (List Nat × List Nat)
  | 0, input => some ([], input)
  | n + 1, input =>
      match input with
      | [] => none
      | b :: rest =>
          match readBytes n rest with
          | none => none
          | some (bs, rest2) => some (b :: bs, rest2)

/-- Validation performed by String::from_utf8 in the Utf8 arm. Only the
ASCII fragment of UTF-8 is modelled; no claim involves non-ASCII constant
text. -/
def utf8Decode (bytes : List Nat) : Option (List Char) :=
  if bytes.all (fun b => b < 128) then some (bytes.map Char.ofNat) else none

/-- ClassFileReader::constant_tag (reader.rs lines 485-596): decode one
constant-pool entry given its tag byte. An unknown tag is a decode error.
Long and Double entries read 8 bytes but produce a single decoded entry. -/
def constantTag (tag : Nat) (input : List Nat) : Option (ConstantPoolInfo × List Nat) :=
  if tag = 1 then
    match readU16 input with
    | none => none
    | some (length, r1) =>
        match readBytes length r1 with
        | none => none
        | some (bytes, r2) =>
            match utf8Decode bytes with
            | none => none
            | some s => some (ConstantPoolInfo.utf8 s, r2)
  else if tag = 3 then
    match readI32 input with
    | none => none
    | some (v, r) => some (ConstantPoolInfo.integer v, r)
  else if tag = 4 then
    match readU32 input with
    | none => none
    | some (v, r) => some (ConstantPoolInfo.floatInfo v, r)
  else if tag = 5 then
    match readI64 input with
    | none => none
    | some (v, r) => some (ConstantPoolInfo.long v, r)
  else if tag = 6 then
    match readU64 input with
    | none => none
    | some (v, r) => some (ConstantPoolInfo.doubleInfo v, r)
  else if tag = 7 then
    match readU16 input with
    | none => none
    | some (v, r) => some (ConstantPoolInfo.classInfo v, r)
  else if tag = 8 then
    match readU16 input with
    | none => none
    | some (v, r) => some (ConstantPoolInfo.string v, r)
  else if tag = 9 then
    match readU16 input with
    | none => none
    | some (ci, r1) =>
        match readU16 r1 with
        | none => none
        | some (nti, r2) => some (ConstantPoolInfo.fieldRef ci nti, r2)
  else if tag = 10 then
    match readU16 input with
    | none => none
    | some (ci, r1) =>
        match readU16 r1 with
        | none => none
        | some (nti, r2) => some (ConstantPoolInfo.methodRef ci nti, r2)
  else if tag = 11 then
    match readU16 input with
    | none => none
    | some (ci, r1) =>
        match readU16 r1 with
        | none => none
        | some (nti, r2) => some (ConstantPoolInfo.interfaceMethodRef ci nti, r2)
  else if tag = 12 then
    match readU16 input with
    | none => none
    | some (ni, r1) =>
        match readU16 r1 with
        | none => none
        | some (di, r2) => some (ConstantPoolInfo.nameAndType ni di, r2)
  else if tag = 15 then
    match readU8 input with
    | none => none
    | some (k, r1) =>
        match readU16 r1 with
        | none => none
        | some (ri, r2) => some (ConstantPoolInfo.methodHandle k ri, r2)
  else if tag = 16 then
    match readU16 input with
    | none => none
    | some (di, r) => some (ConstantPoolInfo.methodType di, r)
  else if tag = 17 then
    match readU16 input with
    | none => none
    | some (bi, r1) =>
        match readU16 r1 with
        | none => none
        | some (nti, r2) => some (ConstantPoolInfo.dynamic bi nti, r2)
  else if tag = 18 then
    match readU16 input with
    | none => none
    | some (bi, r1) =>
        match readU16 r1 with
        | none => none
        | some (nti, r2) => some (ConstantPoolInfo.invokeDynamic bi nti, r2)
  else if tag = 19 then
    match readU16 input with
    | none => none
    | some (ni, r) => some (ConstantPoolInfo.moduleInfo ni, r)
  else if tag = 20 then
    match readU16 input with
    | none => none
    | some (ni, r) => some (ConstantPoolInfo.packageInfo ni, r)
  else none

/-- Entry loop of ClassFileReader::read (reader.rs lines 279-282): read a
tag byte and one entry per iteration, one decoded slot per entry, with no
slot skipping after Long or Double. -/
def readEntries : Nat → List Nat → Option (List ConstantPoolInfo × List Nat)
  | 0, input => some ([], input)
  | n + 1, input =>
      match readU8 input with
      | none => none
      | some (tag, r1) =>
          match constantTag tag r1 with
          | none => none
          | some (entry, r2) =>
              match readEntries n r2 with
              | none => none
              | some (entries, r3) => some (entry :: entries, r3)

/-- Constant-pool decoding of ClassFileReader::read (reader.rs lines
277-283): a sentinel String entry fills index 0, then constant_pool_count -
1 entries are read in sequence. -/
def readConstantPoolList (count : Nat) (input : List Nat) :
    Option (List ConstantPoolInfo × List Nat) :=
  match readEntries (count - 1) input with
  | none => none
  | some (entries, rest) => some (ConstantPoolInfo.string 0 :: entries, rest)

/-- Resolved constants (vm/constant_pool.rs ResolvedConstant). Class, field
and method handles are Rc identities, modelled as arena indices. -/
inductive ResolvedConstant where
  | integer (v : Int)
  | floatR (bits : Nat)
  | stringR (s : List Char)
  | classR (class_handle : Nat)
  | fieldRef (field : Nat)
  | methodRef (method : Nat) (class_handle : Nat)
deriving DecidableEq

/-- Runtime class as the resolver sees it (vm/class.rs Class): the member
maps send a "name:descriptor" key to the Rc handle of the member. The
constant pool, super name and access flags of the class are not read by any
claim below and are omitted. -/
structure ClassData where
  name : List Char
  fields : List (List Char × Nat)
  methods : List (List Char × Nat)
deriving DecidableEq

/-- Association-list lookup, modelling the HashMap get calls. -/
def lookupAssoc {α β : Type} [DecidableEq α] : List (α × β) → α → Option β
  | [], _ => none
  | (k, v) :: rest, key => if key = k then some v else lookupAssoc rest key

/-- Loaded-class registry (vm/class_loader.rs ClassLoader): names map to
handles, and the arena owns the class data; the handle of a class is its
arena index, so handle equality is Rc identity. -/
structure ClassLoader where
  loaded_classes : List (List Char × Nat)
  arena : List ClassData
deriving DecidableEq

/-- ClassLoader::load_class (vm/class_loader.rs lines 72-82): a registry hit
returns the cached handle unchanged; otherwise the class file is read from
disk and decoded — the filesystem together with ClassFileReader and
Class::from_classfile is abstracted into the disk parameter — and the new
class is registered under a fresh handle. -/
def loadClass (loader : ClassLoader) (disk : List Char → Option ClassData)
    (name : List Char) : Option (Nat × ClassLoader) :=
  match lookupAssoc loader.loaded_classes name with
  | some h => some (h, loader)
  | none =>
      match disk name with
      | none => none
      | some data =>
          let h := loader.arena.length
          some (h, ⟨(name, h) :: loader.loaded_classes, loader.arena ++ [data]⟩)

/-- Wrapped constant pool with its resolution cache (vm/constant_pool.rs
VMConstantPool): the decoded entries and the RefCell HashMap cache. -/
structure VMConstantPool where
  cp : List ConstantPoolInfo
  resolved_constants : List (Nat × ResolvedConstant)
deriving DecidableEq

/-- VMConstantPool::get_utf8: panics when the entry is not Utf8 or the index
is out of range. -/
def getUtf8 (pool : VMConstantPool) (index : Nat) : Option (List Char) :=
  match pool.cp.get? index with
  | some (ConstantPoolInfo.utf8 s) => some s
  | _ => none

/-- VMConstantPool::get_class_name: follow a Class entry to its Utf8 name. -/
def getClassName (pool : VMConstantPool) (index : Nat) : Option (List Char) :=
  match pool.cp.get? index with
  | some (ConstantPoolInfo.classInfo ni) => getUtf8 pool ni
  | _ => none

/-- VMConstantPool::get_name_and_type. -/
def getNameAndType (pool : VMConstantPool) (index : Nat) :
    Option (List Char × List Char) :=
  match pool.cp.get? index with
  | some (ConstantPoolInfo.nameAndType ni di) =>
      match getUtf8 pool ni with
      | none => none
      | some n =>
          match getUtf8 pool di with
          | none => none
          | some d => some (n, d)
  | _ => none

/-- Member key built by format with name, colon, descriptor. -/
def memberKey (name descriptor : List Char) : List Char :=
  name ++ ':' :: descriptor

/-- Slow path of VMConstantPool::resolve_constant (vm/constant_pool.rs
lines 68-100): the match over the pool entry, run on a cache miss. Entries
outside the six handled variants — Long and Double among them — fall into
the unimplemented arm. -/
def resolveSlow (pool : VMConstantPool) (index : Nat) (loader : ClassLoader)
    (disk : List Char → Option ClassData) : Option (ResolvedConstant × ClassLoader) :=
  match pool.cp.get? index with
  | some (ConstantPoolInfo.integer v) => some (ResolvedConstant.integer v, loader)
  | some (ConstantPoolInfo.floatInfo b) => some (ResolvedConstant.floatR b, loader)
  | some (ConstantPoolInfo.string si) =>
      match getUtf8 pool si with
      | none => none
      | some s => some (ResolvedConstant.stringR s, loader)
  | some (ConstantPoolInfo.classInfo ni) =>
      match getUtf8 pool ni with
      | none => none
      | some n =>
          match loadClass loader disk n with
          | none => none
          | some (h, loader2) => some (ResolvedConstant.classR h, loader2)
  | some (ConstantPoolInfo.fieldRef ci nti) =>
      match getClassName pool ci with
      | none => none
      | some cn =>
          match loadClass loader disk cn with
          | none => none
          | some (h, loader2) =>
              match getNameAndType pool nti with
              | none => none
              | some nd =>
                  match loader2.arena.get? h with
                  | none => none
                  | some cls =>
                      match lookupAssoc cls.fields (memberKey nd.1 nd.2) with
                      | none => none
                      | some f => some (ResolvedConstant.fieldRef f, loader2)
  | some (ConstantPoolInfo.methodRef ci nti) =>
      match getClassName pool ci with
      | none => none
      | some cn =>
          match loadClass loader disk cn with
          | none => none
          | some (h, loader2) =>
              match getNameAndType pool nti with
              | none => none
              | some nd =>
                  match loader2.arena.get? h with
                  | none => none
                  | some cls =>
                      match lookupAssoc cls.methods (memberKey nd.1 nd.2) with
                      | none => none
                      | some m => some (ResolvedConstant.methodRef m h, loader2)
  | _ => none

/-- VMConstantPool::resolve_constant (vm/constant_pool.rs lines 63-104): a
cache hit returns the cached clone of the handle with everything unchanged;
a miss runs the slow path and inserts the result into the cache. The final
Bool records whether the slow path ran. -/
def resolveConstant (pool : VMConstantPool) (index : Nat) (loader : ClassLoader)
    (disk : List Char → Option ClassData) :
    Option (ResolvedConstant × VMConstantPool × ClassLoader × Bool) :=
  match lookupAssoc pool.resolved_constants index with
  | some r => some (r, pool, loader, false)
  | none =>
      match resolveSlow pool index loader disk with
      | none => none
      | some (r, loader2) =>
          some (r, { pool with resolved_constants := (index, r) :: pool.resolved_constants },
                loader2, true)

/-- Interpreter state touched by the ldc family: the loader, the
interned-string table, and a heap allocation counter. Heap objects are
identified by allocation index; no ldc claim reads their contents. -/
structure LdcState where
  loader : ClassLoader
  interned_strings : List (List Char × Nat)
  heap_size : Nat
deriving DecidableEq

/-- JVM::make_java_string (vm/jvm.rs lines 2057-2079): an interned hit
returns the cached heap handle; otherwise a fresh String object and its
backing char-array object are allocated (two heap slots; the value field
write is not tracked in this reduced heap) and the string is interned. -/
def makeJavaString (st : LdcState) (disk : List Char → Option ClassData)
    (s : List Char) : Option (Nat × LdcState) :=
  match lookupAssoc st.interned_strings s with
  | some p => some (p, st)
  | none =>
      match loadClass st.loader disk ("java/lang/String".toList) with
      | none => none
      | some (_, loader1) =>
          let strObj := st.heap_size
          match loadClass loader1 disk ("[C".toList) with
          | none => none
          | some (_, loader2) =>
              some (strObj, ⟨loader2, (s, strObj) :: st.interned_strings, st.heap_size + 2⟩)

/-- JVM::ldc (vm/jvm.rs lines 2043-2053): resolve the constant and push.
Integer and Float push the numeric; String pushes the interned heap string;
a resolved Class hits an unimplemented arm; anything else panics. -/
def ldc (frame : StackFrame) (pool : VMConstantPool) (st : LdcState)
    (disk : List Char → Option ClassData) (index : Nat) :
    Option (StackFrame × VMConstantPool × LdcState) :=
  match resolveConstant pool index st.loader disk with
  | none => none
  | some (r, pool2, loader2, _) =>
      let st2 := { st with loader := loader2 }
      match r with
      | ResolvedConstant.integer v =>
          some ({ frame with operand_stack := JValue.int v :: frame.operand_stack }, pool2, st2)
      | ResolvedConstant.floatR b =>
          some ({ frame with operand_stack := JValue.float b :: frame.operand_stack }, pool2, st2)
      | ResolvedConstant.stringR s =>
          match makeJavaString st2 disk s with
          | none => none
          | some (h, st3) =>
              some ({ frame with operand_stack := JValue.reference h :: frame.operand_stack },
                    pool2, st3)
      | _ => none

/-- Dispatch of the Ldc2W opcode (vm/jvm.rs line 100): it is routed to the
same ldc handler with the same index. -/
def ldc2W (frame : StackFrame) (pool : VMConstantPool) (st : LdcState)
    (disk : List Char → Option ClassData) (index : Nat) :
    Option (StackFrame × VMConstantPool × LdcState) :=
  ldc frame pool st disk index

/-- Heap-object kinds (vm/jobject.rs JObjectKind). Reference-array elements
are Options over heap addresses, matching Vec of Option Rc. Float, double
and char buffers carry bit patterns. -/
inductive JObjectKind where
  | object
  | arrayInt (a : List Int)
  | arrayLong (a : List Int)
  | arrayFloat (a : List Nat)
  | arrayDouble (a : List Nat)
  | arrayRef (a : List (Option Nat))
  | arrayChar (a : List Nat)
  | arrayByte (a : List Int)
  | arrayShort (a : List Int)
  | arrayBoolean (a : List Bool)
deriving DecidableEq

/-- Heap object (vm/jobject.rs JObject): owning class handle, kind, and the
instance-field map. -/
structure JObject where
  class_handle : Nat
  kind : JObjectKind
  fields : List (List Char × JValue)
deriving DecidableEq

/-- JObject::new_reference_array (vm/jobject.rs lines 69-81): panics on a
negative count; otherwise every element starts in the empty None state. -/
def newReferenceArray (class_handle : Nat) (count : Int) : Option JObject :=
  if count < 0 then none
  else some ⟨class_handle, JObjectKind.arrayRef (List.replicate count.toNat none), []⟩

/-- Handler aaload (vm/jvm.rs lines 1923-1941): pop the index, pop the array
reference, read the element and unwrap it. An element still in its initial
None state panics at the unwrap, so nothing is ever pushed for it; the Rust
index cast i32 as usize sends negative indices out of bounds. -/
def aaload (frame : StackFrame) (heap : List JObject) : Option StackFrame :=
  match frame.operand_stack with
  | JValue.int index :: JValue.reference addr :: rest =>
      match heap.get? addr with
      | none => none
      | some obj =>
          match obj.kind with
          | JObjectKind.arrayRef arr =>
              if 0 ≤ index then
                match arr.get? index.toNat with
                | some (some r) =>
                    some { frame with operand_stack := JValue.reference r :: rest }
                | some none => none
                | none => none
              else none
          | _ => none
  | _ => none

/-- Handler aastore (vm/jvm.rs lines 1683-1706): pop the value, the index
and the array reference, and store Some value at the index. -/
def aastore (frame : StackFrame) (heap : List JObject) :
    Option (StackFrame × List JObject) :=
  match frame.operand_stack with
  | JValue.reference value :: JValue.int index :: JValue.reference addr :: rest =>
      match heap.get? addr with
      | none => none
      | some obj =>
          match obj.kind with
          | JObjectKind.arrayRef arr =>
              if 0 ≤ index ∧ index.toNat < arr.length then
                some ({ frame with operand_stack := rest },
                      heap.set addr
                        { obj with kind := JObjectKind.arrayRef (arr.set index.toNat (some value)) })
              else none
          | _ => none
  | _ => none

/-- C1: the claim states that if_icmpge pops both ints and branches exactly
when value1 >= value2, otherwise advancing past the instruction. The
dispatch table routes IfICmpGe into the if_icmpgt handler, so equal
operands fall through: with value1 = value2 = 0 at pc 10 and branch offset
5, both values are popped but pc becomes 13 (past the 3-byte instruction)
instead of the branch target 15 = 10 + 5 that the claim requires. -/
theorem C1_if_icmpge_equal_operands_fall_through :
    stepIfICmpGe { locals := [], operand_stack := [JValue.int 0, JValue.int 0], pc := 10 } 5
      = some { locals := [], operand_stack := [], pc := 13 } ∧ (13 : Nat) ≠ 10 + 5 := by
  decide

/-- C2: the claim states that invokespecial places argument values so that a
Long or Double argument occupies two local slots of the callee. The source
copy loop writes arguments into consecutive slots: invoking a method of
descriptor (JI)V on a caller stack holding Int 9 over Long 7 over the
receiver puts the Int argument at local slot 2, not slot 3 where the claim
requires it (slot 3 still holds the initial filler). -/
theorem C2_invokespecial_long_arg_occupies_one_slot :
    invokespecial
        { locals := [], operand_stack := [JValue.int 9, JValue.long 7, JValue.reference 0], pc := 0 }
        { name := [], descriptor := "(JI)V".toList, code := [], max_locals := 4, max_stack := 0 }
      = some ({ locals := [], operand_stack := [], pc := 3 },
              { locals := [JValue.reference 0, JValue.long 7, JValue.int 9, JValue.null],
                operand_stack := [], pc := 0 }) ∧
    [JValue.reference 0, JValue.long 7, JValue.int 9, JValue.null].get? 3
      ≠ some (JValue.int 9) := by
  constructor
  · simp [invokespecial, parseMethodDescriptor, parseArgs, parseFieldType, parseReturnType,
          takeObjectName, popMany, setLocal, storeArgs, StackFrame.new, List.replicate,
          String.toList]
  · decide

/-- C3: the claim states that integer arithmetic opcodes never abort and
wrap on overflow. The iadd handler adds with the plain + operator, which in
a debug build panics when the mathematical sum leaves the 32-bit signed
range: on value1 = 2^31 - 1, value2 = 1 execution aborts, while the claim
requires the wrapped result -2^31 to be pushed. -/
theorem C3_iadd_overflow_aborts :
    iadd { locals := [], operand_stack := [JValue.int 1, JValue.int (2 ^ 31 - 1)], pc := 0 }
      = none ∧
    wrapSigned 32 (2 ^ 31 - 1 + 1) = -(2 ^ 31) := by
  decide

/-- C4: the claim states that lushr pushes a Long equal to the logical right
shift of the full 64-bit pattern. The handler casts the long to u32 before
shifting and pushes an Int: on value1 = 2^32 with shift 0 the code pushes
Int 0, where the claim requires the Long 2^32 (whose low 32 bits are zero)
to survive. -/
theorem C4_lushr_truncates_and_pushes_int :
    lushr { locals := [], operand_stack := [JValue.int 0, JValue.long (2 ^ 32)], pc := 0 }
      = some { locals := [], operand_stack := [JValue.int 0], pc := 0 } ∧
    JValue.int 0 ≠ JValue.long (2 ^ 32) := by
  decide

/-- C5: the claim states that both tableswitch decoders read exactly
high - low + 1 jump offsets. On an instruction with low = 0, high = 1
(offsets 20 and 24 present in the stream) the class-file reader decodes
only one offset, leaving the second unconsumed, while the interpreter
decoder reads both; the claim requires high - low + 1 = 2 entries from
each. -/
theorem C5_reader_tableswitch_reads_one_offset_too_few :
    parseTableswitchReader 4
        [0, 0, 0, 12, 0, 0, 0, 0, 0, 0, 0, 1, 0, 0, 0, 20, 0, 0, 0, 24]
      = some (⟨12, 0, 1, [20]⟩, 20, [0, 0, 0, 24]) ∧
    parseTableswitchInterp
        ([0, 0, 0, 0xAA] ++ [0, 0, 0, 12, 0, 0, 0, 0, 0, 0, 0, 1, 0, 0, 0, 20, 0, 0, 0, 24]) 3
      = some (⟨12, 0, 1, [20, 24]⟩, 21) ∧
    ([20] : List Int).length ≠ 2 := by
  decide

/-- C6: the claim states that a Long or Double constant occupies two decoded
pool slots so later entries keep their class-file indices. The entry loop
produces one slot per parsed entry: decoding a pool of count 4 whose
class-file entries are a Long (format index 1, occupying indices 1 and 2)
and an Integer 7 (format index 3) places the Integer at decoded index 2 and
mis-reads the following bytes as a further entry, so decoded index 3 does
not hold the Integer 7 the claim requires there. -/
theorem C6_long_constant_fills_single_pool_slot :
    readConstantPoolList 4
        [5, 0, 0, 0, 0, 0, 0, 0, 42, 3, 0, 0, 0, 7, 3, 0, 0, 0, 1]
      = some ([ConstantPoolInfo.string 0, ConstantPoolInfo.long 42,
               ConstantPoolInfo.integer 7, ConstantPoolInfo.integer 1], []) ∧
    [ConstantPoolInfo.string 0, ConstantPoolInfo.long 42,
     ConstantPoolInfo.integer 7, ConstantPoolInfo.integer 1].get? 3
      ≠ some (ConstantPoolInfo.integer 7) := by
  decide

/-- C7: the claim states that ldc2_w on a Long or Double constant pushes
that literal without aborting. Ldc2W dispatches into ldc, whose resolution
step has no arm for Long or Double entries and dies in the unimplemented
arm: on a pool whose entry 1 is Long 42 the execution aborts. -/
theorem C7_ldc2_w_long_constant_aborts :
    ldc2W { locals := [], operand_stack := [], pc := 0 }
        { cp := [ConstantPoolInfo.string 0, ConstantPoolInfo.long 42], resolved_constants := [] }
        { loader := { loaded_classes := [], arena := [] }, interned_strings := [], heap_size := 0 }
        (fun _ => none) 1
      = none := by
  rfl

/-- C8: category-2 contract of the stack opcodes. After dup2 on a stack
whose top is a Long the two top logical slots hold identical Longs; pop2 on
an Int over an Int removes both; pop2 on a category-2 top value (Long or
Double) removes only that one value. -/
theorem C8_category2_stack_contract :
    (∀ (v : Int) (s l : List JValue) (p : Nat),
        dup2 { locals := l, operand_stack := JValue.long v :: s, pc := p }
          = some { locals := l, operand_stack := JValue.long v :: JValue.long v :: s, pc := p }) ∧
    (∀ (a b : Int) (s l : List JValue) (p : Nat),
        pop2 { locals := l, operand_stack := JValue.int a :: JValue.int b :: s, pc := p }
          = some { locals := l, operand_stack := s, pc := p }) ∧
    (∀ (v : JValue) (s l : List JValue) (p : Nat), v.is_category2 = true →
        pop2 { locals := l, operand_stack := v :: s, pc := p }
          = some { locals := l, operand_stack := s, pc := p }) := by
  refine ⟨fun v s l p => rfl, fun a b s l p => rfl, fun v s l p h => ?_⟩
  simp [pop2, h]

/-- Witness for C8 at a concrete instance: pop2 on a stack whose only value
is a Long removes exactly that value. -/
theorem C8_category2_stack_contract_witness :
    pop2 { locals := [], operand_stack := [JValue.long 5], pc := 0 }
      = some { locals := [], operand_stack := [], pc := 0 } :=
  C8_category2_stack_contract.2.2 (JValue.long 5) [] [] 0 (by decide)

/-- C9: constant-pool resolution is idempotent. Whenever a resolve call
succeeds, resolving the same index again in the resulting state returns the
same resolved constant (handles included, which by the arena modelling
means Rc identity for classes, fields and methods), leaves the pool cache
and the loader untouched, and performs no slow-path resolution work. -/
theorem C9_resolve_constant_idempotent
    (pool : VMConstantPool) (index : Nat) (loader : ClassLoader)
    (disk : List Char → Option ClassData)
    (r : ResolvedConstant) (pool2 : VMConstantPool) (loader2 : ClassLoader) (w : Bool)
    (h : resolveConstant pool index loader disk = some (r, pool2, loader2, w)) :
    resolveConstant pool2 index loader2 disk = some (r, pool2, loader2, false) := by
  unfold resolveConstant at h ⊢
  cases hl : lookupAssoc pool.resolved_constants index with
  | some r0 =>
      rw [hl] at h
      simp only [Option.some.injEq, Prod.mk.injEq] at h
      obtain ⟨h1, h2, h3, h4⟩ := h
      subst h1
      subst h2
      subst h3
      rw [hl]
  | none =>
      rw [hl] at h
      cases hs : resolveSlow pool index loader disk with
      | none => rw [hs] at h; cases h
      | some pr =>
          obtain ⟨r0, l2⟩ := pr
          rw [hs] at h
          simp only [Option.some.injEq, Prod.mk.injEq] at h
          obtain ⟨h1, h2, h3, h4⟩ := h
          subst h1
          subst h3
          subst h2
          simp [lookupAssoc]

/-- Witness for C9 at a concrete instance: after a successful first
resolution of an Integer constant at index 1, the second call returns the
cached result with no work. -/
theorem C9_resolve_constant_idempotent_witness :
    resolveConstant
        { cp := [ConstantPoolInfo.string 0, ConstantPoolInfo.integer 5],
          resolved_constants := [(1, ResolvedConstant.integer 5)] } 1
        { loaded_classes := [], arena := [] } (fun _ => none)
      = some (ResolvedConstant.integer 5,
              { cp := [ConstantPoolInfo.string 0, ConstantPoolInfo.integer 5],
                resolved_constants := [(1, ResolvedConstant.integer 5)] },
              { loaded_classes := [], arena := [] }, false) :=
  C9_resolve_constant_idempotent
    { cp := [ConstantPoolInfo.string 0, ConstantPoolInfo.integer 5], resolved_constants := [] } 1
    { loaded_classes := [], arena := [] } (fun _ => none)
    (ResolvedConstant.integer 5)
    { cp := [ConstantPoolInfo.string 0, ConstantPoolInfo.integer 5],
      resolved_constants := [(1, ResolvedConstant.integer 5)] }
    { loaded_classes := [], arena := [] } true rfl

/-- C10: reference-array elements start in the empty None state, aaload on
such an element aborts at its unwrap rather than pushing Null, and a
successful aaload always pushes the Reference stored in the selected
element. -/
theorem C10_aaload_aborts_on_unset_element :
    (∀ (c : Nat) (count : Int), 0 ≤ count →
        newReferenceArray c count
          = some ⟨c, JObjectKind.arrayRef (List.replicate count.toNat none), []⟩) ∧
    (∀ (fr : StackFrame) (heap : List JObject) (index : Int) (addr : Nat)
        (rest : List JValue) (obj : JObject) (arr : List (Option Nat)),
        fr.operand_stack = JValue.int index :: JValue.reference addr :: rest →
        heap.get? addr = some obj →
        obj.kind = JObjectKind.arrayRef arr →
        0 ≤ index →
        arr.get? index.toNat = some none →
        aaload fr heap = none) ∧
    (∀ (lo os : List JValue) (pcv : Nat) (heap : List JObject) (index : Int)
        (addr : Nat) (rest : List JValue) (fr2 : StackFrame),
        os = JValue.int index :: JValue.reference addr :: rest →
        aaload { locals := lo, operand_stack := os, pc := pcv } heap = some fr2 →
        ∃ (obj : JObject) (arr : List (Option Nat)) (r : Nat),
          heap.get? addr = some obj ∧ obj.kind = JObjectKind.arrayRef arr ∧
          arr.get? index.toNat = some (some r) ∧
          fr2 = { locals := lo, operand_stack := JValue.reference r :: rest, pc := pcv }) := by
  refine ⟨?_, ?_, ?_⟩
  · intro c count hc
    have : ¬ count < 0 := by omega
    simp [newReferenceArray, this]
  · intro fr heap index addr rest obj arr hstack hheap hkind hidx helem
    obtain ⟨lo, os, pcv⟩ := fr
    simp only at hstack
    subst hstack
    rw [List.get?_eq_getElem?] at hheap helem
    simp [aaload, hheap, hkind, hidx, helem, List.get?_eq_getElem?]
  · intro lo os pcv heap index addr rest fr2 hstack h
    subst hstack
    unfold aaload at h
    dsimp only at h
    cases hheap : heap.get? addr with
    | none => rw [hheap] at h; simp at h
    | some obj =>
        rw [hheap] at h
        dsimp only at h
        cases hkind : obj.kind <;> rw [hkind] at h <;> try dsimp only at h
        case arrayRef arr =>
          by_cases hidx : 0 ≤ index
          · rw [if_pos hidx] at h
            cases helem : arr.get? index.toNat with
            | none => rw [helem] at h; cases h
            | some o =>
                rw [helem] at h
                cases o with
                | none => cases h
                | some r =>
                    cases h
                    exact ⟨obj, arr, r, rfl, hkind, helem, rfl⟩
          · rw [if_neg hidx] at h; cases h
        all_goals cases h

/-- Witness for C10 at a concrete instance: aaload of index 0 of a fresh
one-element reference array aborts. -/
theorem C10_aaload_aborts_on_unset_element_witness :
    aaload { locals := [], operand_stack := [JValue.int 0, JValue.reference 0], pc := 0 }
        [{ class_handle := 0, kind := JObjectKind.arrayRef [none], fields := [] }] = none :=
  C10_aaload_aborts_on_unset_element.2.1
    { locals := [], operand_stack := [JValue.int 0, JValue.reference 0], pc := 0 }
    [{ class_handle := 0, kind := JObjectKind.arrayRef [none], fields := [] }]
    0 0 [] { class_handle := 0, kind := JObjectKind.arrayRef [none], fields := [] } [none]
    rfl rfl rfl (by decide) rfl

end JvmR
